import Mathlib

/-!
Verification of the `stl_allocator_wrapper` repository.

The repository consists of a single macro `DECLARE_STL_ALLOCATOR_WRAPPER`
(src/allocwrap.hpp) generating a `std::allocator`-compatible adapter class
around a fixed underlying ("native") allocator instance, plus a demo program
(src/demo.cpp) that backs a `std::basic_string` and a `std::map` with the
generated adapter.

The embedding below translates the generated adapter's member functions.
The underlying allocator is an abstract record of the three operations the
header requires (`malloc`, `free`, `max_size`), with explicit state passing
(state type `σ`).  Pointers are naturals; the C++ `NULL` return of `malloc`
is `Option.none`.  `size_type` is `std::size_t`, a `w`-bit unsigned integer:
arithmetic on it is carried out in `Nat` with an explicit `% 2 ^ w`.
-/

namespace AllocWrap

/-- A call the generated adapter makes to the underlying native allocator:
`malloc bytes` or `free ptr`.  Used to state which native operations an
adapter member function performs. -/
inductive NativeCall where
  | malloc (bytes : Nat)
  | free (ptr : Nat)
deriving DecidableEq, Repr

/-- The underlying native allocator required by src/allocwrap.hpp lines 11-20:
`void* malloc(size_t)` (returns `none` for `NULL`), `void free(void*)`, and
`size_t max_size() const`.  `σ` is the allocator's private state. -/
structure NativeAllocator (σ : Type) where
  malloc : Nat → σ → Option Nat × σ
  free : Nat → σ → σ
  maxSize : σ → Nat

/-- The byte count the adapter passes to the native `malloc`:
`n * sizeof(value_type)` computed in `size_t` arithmetic, i.e. the product
wraps modulo `2 ^ w` (src/allocwrap.hpp line 90). -/
def allocRequestBytes (w sizeofT n : Nat) : Nat :=
  (n * sizeofT) % 2 ^ w

/-- The list of native-allocator calls `allocate(n)` performs
(src/allocwrap.hpp lines 89-93): exactly one `malloc` of
`allocRequestBytes w sizeofT n` bytes. -/
def allocateCalls (w sizeofT n : Nat) : List NativeCall :=
  [NativeCall.malloc (allocRequestBytes w sizeofT n)]

/-- The list of native-allocator calls `deallocate(p, n)` performs
(src/allocwrap.hpp lines 94-96): exactly one `free` of `p`; the statement
`n;` has no effect. -/
def deallocateCalls (p n : Nat) : List NativeCall :=
  [NativeCall.free p]

/-- Stateful semantics of `allocate(n)` (src/allocwrap.hpp lines 89-93):
call the native `malloc` with `n * sizeof(value_type)` bytes; if it returns
`NULL`, throw `std::bad_alloc` (the `Except.error` carries the native state
after the failed `malloc`), otherwise return the pointer. -/
def allocate {σ : Type} (A : NativeAllocator σ) (w sizeofT n : Nat) (s : σ) :
    Except σ (Nat × σ) :=
  match A.malloc (allocRequestBytes w sizeofT n) s with
  | (some p, s') => Except.ok (p, s')
  | (none, s') => Except.error s'

/-- Stateful semantics of `deallocate(p, n)` (src/allocwrap.hpp lines 94-96):
forward `p` to the native `free`; `n` is ignored. -/
def deallocate {σ : Type} (A : NativeAllocator σ) (p n : Nat) (s : σ) : σ :=
  A.free p s

/-- Semantics of `max_size()` (src/allocwrap.hpp lines 97-99): the native
`max_size()` divided by `sizeof(value_type)` with C++ truncating unsigned
integer division (which is `Nat` division). -/
def max_size {σ : Type} (A : NativeAllocator σ) (sizeofT : Nat) (s : σ) : Nat :=
  A.maxSize s / sizeofT

/-- The generated adapter class `CLASS_TYPE<T>`: it has no data members; the
native allocator instance is a fixed global binding baked into the macro
expansion, not per-instance state (src/allocwrap.hpp lines 66-106). -/
structure Adapter (T : Type) : Type where

/-- Default constructor `CLASS_TYPE()` (line 79): empty body, so the native
allocator state is passed through unchanged. -/
def defaultCtor (T : Type) {σ : Type} (s : σ) : Adapter T × σ :=
  (⟨⟩, s)

/-- Copy constructor `CLASS_TYPE(const CLASS_TYPE&)` (line 80): empty body. -/
def copyCtor {T σ : Type} (other : Adapter T) (s : σ) : Adapter T × σ :=
  (⟨⟩, s)

/-- Rebind/converting constructor
`template<U> CLASS_TYPE(const CLASS_TYPE<U>&)` (line 81): empty body.  This
is the constructor a container uses when rebinding the element type. -/
def rebindCtor (T : Type) {U σ : Type} (other : Adapter U) (s : σ) :
    Adapter T × σ :=
  (⟨⟩, s)

/-- Destructor `~CLASS_TYPE()` (line 82): empty body. -/
def dtor {T σ : Type} (self : Adapter T) (s : σ) : σ :=
  s

/-- Copy assignment `operator=(const CLASS_TYPE&)` (line 85): returns
`*this`, touching nothing. -/
def assign {T σ : Type} (self other : Adapter T) (s : σ) : Adapter T × σ :=
  (self, s)

/-- Rebind assignment `template<U> operator=(const CLASS_TYPE<U>&)`
(line 86): returns `*this`, touching nothing. -/
def rebindAssign {T U σ : Type} (self : Adapter T) (other : Adapter U)
    (s : σ) : Adapter T × σ :=
  (self, s)

/-- `operator==` (line 83): unconditionally `true`. -/
def adapterEq {T : Type} (self other : Adapter T) : Bool :=
  true

/-- `operator!=` (line 84): unconditionally `false`. -/
def adapterNe {T : Type} (self other : Adapter T) : Bool :=
  false

/-- Element storage for `construct`/`destroy`: a map from addresses to the
object currently alive there (`none` = raw storage, no live object). -/
def Memory (T : Type) : Type := Nat → Option T

/-- `construct(p, val)` (src/allocwrap.hpp lines 100-102): placement
`::new (p) value_type(val)` — copy-construct the value at address `p`;
no storage is allocated. -/
def construct {T : Type} (p : Nat) (val : T) (m : Memory T) : Memory T :=
  fun q => if q = p then some val else m q

/-- `destroy(p)` (src/allocwrap.hpp lines 103-105): `p->~value_type()` —
end the lifetime of the object at `p`; the storage is not released. -/
def destroy {T : Type} (p : Nat) (m : Memory T) : Memory T :=
  fun q => if q = p then none else m q

/-- Reading `*p` from element storage. -/
def readPtr {T : Type} (p : Nat) (m : Memory T) : Option T :=
  m p

/-- The list of native-allocator calls `construct` performs: none
(placement new allocates nothing). -/
def constructCalls : List NativeCall :=
  []

/-- The list of native-allocator calls `destroy` performs: none
(the destructor call releases no storage). -/
def destroyCalls : List NativeCall :=
  []

/-- Modelled from the spec: the ordered key-value container (`std::map`)
used by src/demo.cpp is host-standard-library code not present in the
repository.  Per the spec it keeps entries in ascending key order and an
insert of an already-present key leaves the existing entry in place
(`std::map::insert` does not overwrite). -/
def mapInsert (k : Nat) (v : String) :
    List (Nat × String) → List (Nat × String)
  | [] => [(k, v)]
  | (k', v') :: rest =>
    if k < k' then (k, v) :: (k', v') :: rest
    else if k = k' then (k', v') :: rest
    else (k', v') :: mapInsert k v rest

/-- The demo map of src/demo.cpp lines 53-54: initializer-list entries
`{5,"a123"}, {7,"uuu"}, {999,"t%%%"}` inserted in order, then
`insert(make_pair(666, abc))` with `abc = "haha abc"`. -/
def demoMap : List (Nat × String) :=
  mapInsert 666 "haha abc"
    (mapInsert 999 "t%%%" (mapInsert 7 "uuu" (mapInsert 5 "a123" [])))

/-- A counting native allocator used as a concrete test double: its state is
the outstanding-allocation count; `malloc` always succeeds returning
pointer 1 and increments the count; `free` decrements it. -/
def countAlloc : NativeAllocator Int where
  malloc := fun _ s => (some 1, s + 1)
  free := fun _ s => s - 1
  maxSize := fun _ => 0

/-- A native allocator test double whose `malloc` always fails (returns
`NULL`) without touching state; `max_size` reports 100 bytes. -/
def failAlloc : NativeAllocator Int where
  malloc := fun _ s => (none, s)
  free := fun _ s => s
  maxSize := fun _ => 100

end AllocWrap

open AllocWrap

/-- C1 counterexample: the claim "allocate(n) requests exactly n * sizeof(T)
bytes for every n" fails on the code.  With a 64-bit `size_t` and
`sizeof(T) = 2`, at `n = 2^64 - 1` the product `n * sizeof(T)` wraps modulo
`2^64`, so the `malloc` call does not request `n * sizeof(T)` bytes. -/
theorem C1_overflow_counterexample :
    allocateCalls 64 2 (2 ^ 64 - 1) ≠
      [NativeCall.malloc ((2 ^ 64 - 1) * 2)] := by
  decide

/-- C1 (amended): provided the byte product does not overflow `size_t`
(`n * sizeof(T) < 2 ^ w`), `allocate(n)` performs exactly one call to the
underlying allocator's `malloc`, requesting exactly `n * sizeof(T)` bytes. -/
theorem C1_allocate_requests_bytes (w sizeofT n : Nat)
    (h : n * sizeofT < 2 ^ w) :
    allocateCalls w sizeofT n = [NativeCall.malloc (n * sizeofT)] := by
  simp [allocateCalls, allocRequestBytes, Nat.mod_eq_of_lt h]

/-- Witness for C1 (amended) at `w = 64`, `sizeof(T) = 4`, `n = 10`. -/
theorem C1_allocate_requests_bytes_witness :
    (10 : Nat) * 4 < 2 ^ 64 ∧
      allocateCalls 64 4 10 = [NativeCall.malloc 40] :=
  ⟨by norm_num, C1_allocate_requests_bytes 64 4 10 (by norm_num)⟩

/-- C2: if the underlying `malloc` returns `NULL` for the requested byte
count, `allocate(n)` throws `std::bad_alloc` (`Except.error`) rather than
returning the null pointer; if `malloc` returns a non-null pointer `p`,
`allocate(n)` returns `p` and raises no error. -/
theorem C2_null_becomes_bad_alloc {σ : Type} (A : NativeAllocator σ)
    (w sizeofT n : Nat) (s s' : σ) :
    (A.malloc (allocRequestBytes w sizeofT n) s = (none, s') →
      allocate A w sizeofT n s = Except.error s') ∧
    (∀ p, A.malloc (allocRequestBytes w sizeofT n) s = (some p, s') →
      allocate A w sizeofT n s = Except.ok (p, s')) := by
  constructor
  · intro h
    simp [allocate, h]
  · intro p h
    simp [allocate, h]

/-- Witness for C2: the always-failing double makes `allocate` throw, and the
always-succeeding counting double makes `allocate` return the pointer. -/
theorem C2_null_becomes_bad_alloc_witness :
    allocate failAlloc 64 4 3 0 = Except.error 0 ∧
    allocate countAlloc 64 4 3 0 = Except.ok (1, 0 + 1) :=
  ⟨(C2_null_becomes_bad_alloc failAlloc 64 4 3 0 0).1 rfl,
   (C2_null_becomes_bad_alloc countAlloc 64 4 3 0 (0 + 1)).2 1 rfl⟩

/-- C3: `max_size()` equals the underlying `max_size()` (bytes) divided by
`sizeof(T)` with truncating integer division: the result times `sizeof(T)`
never exceeds the byte bound, and rounding up would overshoot it. -/
theorem C3_max_size_div {σ : Type} (A : NativeAllocator σ)
    (sizeofT : Nat) (h : 0 < sizeofT) (s : σ) :
    max_size A sizeofT s = A.maxSize s / sizeofT ∧
    sizeofT * max_size A sizeofT s ≤ A.maxSize s ∧
    A.maxSize s < sizeofT * (max_size A sizeofT s + 1) := by
  refine ⟨rfl, ?_, ?_⟩
  · exact Nat.mul_div_le (A.maxSize s) sizeofT
  · exact Nat.lt_mul_div_succ (A.maxSize s) h

/-- Witness for C3 at `sizeof(T) = 4` on the double reporting 100 bytes. -/
theorem C3_max_size_div_witness :
    (0 : Nat) < 4 ∧
      (max_size failAlloc 4 0 = 100 / 4 ∧
       4 * max_size failAlloc 4 0 ≤ 100 ∧
       100 < 4 * (max_size failAlloc 4 0 + 1)) :=
  ⟨by decide, C3_max_size_div failAlloc 4 (by decide) 0⟩

/-- C4: an adapter for any element type `U` and an adapter for any element
type `V` obtained from it through the rebind/converting constructor compare
equal under `operator==` (always `true`) and never unequal under
`operator!=` (always `false`). -/
theorem C4_rebind_instances_equal (U V : Type) {σ : Type}
    (a : Adapter U) (b : Adapter V) (s : σ) :
    adapterEq a (rebindCtor U b s).1 = true ∧
    adapterNe a (rebindCtor U b s).1 = false ∧
    (∀ a' b' : Adapter U, adapterEq a' b' = true ∧ adapterNe a' b' = false) :=
  ⟨rfl, rfl, fun _ _ => ⟨rfl, rfl⟩⟩

/-- C5: `deallocate(p, n)` calls the underlying `free` with exactly the
pointer `p`, and the element count `n` has no effect: any two counts yield
the same native call and the same resulting allocator state. -/
theorem C5_deallocate_ignores_count {σ : Type} (A : NativeAllocator σ)
    (p n m : Nat) (s : σ) :
    deallocate A p n s = A.free p s ∧
    deallocateCalls p n = [NativeCall.free p] ∧
    deallocate A p n s = deallocate A p m s ∧
    deallocateCalls p n = deallocateCalls p m :=
  ⟨rfl, rfl, rfl, rfl⟩

/-- C6: default construction, copy construction, rebind construction,
destruction, and both assignment operators of the adapter leave the
underlying allocator's state unchanged — none of them invokes any native
operation. -/
theorem C6_lifecycle_never_touches_allocator (T U : Type) {σ : Type}
    (a b : Adapter T) (u : Adapter U) (s : σ) :
    (defaultCtor T s).2 = s ∧
    (copyCtor a s).2 = s ∧
    (rebindCtor T u s).2 = s ∧
    dtor a s = s ∧
    (assign a b s).2 = s ∧
    (rebindAssign a u s).2 = s :=
  ⟨rfl, rfl, rfl, rfl, rfl, rfl⟩

/-- C7: if the underlying allocator tracks an outstanding-allocation count
(`malloc` success increments it, `free` decrements it) and `allocate(n)`
succeeds returning `p` with state `s'`, then `deallocate(p, n)` restores the
count to its value before the `allocate`. -/
theorem C7_roundtrip_preserves_count {σ : Type} (A : NativeAllocator σ)
    (cnt : σ → Int)
    (hmal : ∀ b s p s', A.malloc b s = (some p, s') → cnt s' = cnt s + 1)
    (hfree : ∀ p s, cnt (A.free p s) = cnt s - 1)
    (w sizeofT n p : Nat) (s s' : σ)
    (hsucc : allocate A w sizeofT n s = Except.ok (p, s')) :
    cnt (deallocate A p n s') = cnt s := by
  unfold allocate at hsucc
  rcases hm : A.malloc (allocRequestBytes w sizeofT n) s with ⟨op, s''⟩
  rw [hm] at hsucc
  cases op with
  | none => simp at hsucc
  | some q =>
    simp only [Except.ok.injEq, Prod.mk.injEq] at hsucc
    obtain ⟨hq, hs⟩ := hsucc
    subst hq
    subst hs
    rw [deallocate, hfree, hmal _ _ _ _ hm]
    ring

/-- Witness for C7 on the counting double: allocating then deallocating
leaves the count at its initial value 0. -/
theorem C7_roundtrip_preserves_count_witness :
    (fun s : Int => s) (deallocate countAlloc 1 2 (0 + 1)) =
      (fun s : Int => s) 0 :=
  C7_roundtrip_preserves_count countAlloc (fun s => s)
    (by
      intro b s p s' h
      simp only [countAlloc, Prod.mk.injEq, Option.some.injEq] at h
      obtain ⟨h1, h2⟩ := h
      simpa using h2.symm)
    (fun _ _ => rfl)
    8 1 2 1 0 (0 + 1) rfl

/-- C8: `construct(p, v)` copy-constructs the value at `p` performing no
allocation, and reading `*p` afterwards yields `v`; `destroy(p)` ends the
object's lifetime without releasing storage, and a subsequent `construct` at
the same address succeeds without reading stale state. -/
theorem C8_construct_destroy (T : Type) (p : Nat) (v v' : T)
    (m : Memory T) :
    readPtr p (construct p v m) = some v ∧
    readPtr p (destroy p (construct p v m)) = none ∧
    readPtr p (construct p v' (destroy p (construct p v m))) = some v' ∧
    constructCalls = [] ∧
    destroyCalls = [] := by
  refine ⟨?_, ?_, ?_, rfl, rfl⟩ <;>
    simp [readPtr, construct, destroy]

/-- C9: the demo's ordered map, after inserting keys 5, 7, 999 (from the
initializer list) and then 666, iterates its entries in ascending key order
5, 7, 666, 999 with the associated string values. -/
theorem C9_demo_map_ascending :
    demoMap = [(5, "a123"), (7, "uuu"), (666, "haha abc"), (999, "t%%%")] ∧
    demoMap.map Prod.fst = [5, 7, 666, 999] := by
  constructor <;> rfl

/-- C10 (implicit): the byte request is computed in `size_t` arithmetic with
no overflow check and no comparison against `max_size()`: at `w = 64`,
`sizeof(T) = 2`, the count `n = 2^63 + 1` exceeds `SIZE_MAX / sizeof(T)`,
the product wraps modulo `2^64` down to 2 bytes, and the adapter requests
strictly fewer bytes than the `n` elements require instead of failing. -/
theorem C10_overflow_requests_fewer_bytes :
    (2 ^ 64 - 1) / 2 < 2 ^ 63 + 1 ∧
    allocRequestBytes 64 2 (2 ^ 63 + 1) = 2 ∧
    allocRequestBytes 64 2 (2 ^ 63 + 1) < (2 ^ 63 + 1) * 2 := by
  refine ⟨by norm_num, ?_, ?_⟩ <;>
  · simp only [allocRequestBytes]
    norm_num
